import Mathlib

/-!
Verification of the aurora-forecast map generators.

This file gives a shallow embedding of the two Python source files
`generate_aurora_map_old.py` and `generate_aurora_map.py` and proves the
spec's claims about them.  Sample intensities, longitudes and latitudes are
modelled as rationals (the feed delivers JSON numbers); pandas' `NaN` result
for the maximum of an empty column is modelled as `Option.none`; fallible
library calls in `main` are modelled by explicit success flags.
-/

namespace AuroraMap

/-- One row of the feed's `coordinates` table: `[Longitude, Latitude, Aurora]`,
as tabulated by `fetch_aurora_data` into columns `lon`, `lat`, `aurora`. -/
structure Sample where
  lon : ℚ
  lat : ℚ
  aurora : ℚ
deriving DecidableEq

/-- The colorbar attached to a marker (`colorbar=dict(title=...)`). -/
structure Colorbar where
  title : String
deriving DecidableEq

/-- The `marker=dict(...)` argument of `go.Scattergeo` in `build_figure`.
`cmax` is an `Option` because `df["aurora"].max()` on an empty frame is
pandas `NaN`, modelled as `none`. -/
structure Marker where
  size : ℕ
  color : List ℚ
  colorscale : String
  cmin : ℚ
  cmax : Option ℚ
  colorbar : Option Colorbar
deriving DecidableEq

/-- One `go.Scattergeo` trace (a threshold layer) of the old generator. -/
structure Scattergeo where
  lon : List ℚ
  lat : List ℚ
  mode : String
  marker : Marker
  showlegend : Bool
  visible : Bool
  name : String
deriving DecidableEq

/-- One dropdown button: `dict(label=..., method="update", args=[{"visible": v}, {"title": t}])`. -/
structure Button where
  label : String
  method : String
  argVisible : List Bool
  argTitle : String
deriving DecidableEq

/-- The `updatemenus` entry of the old generator's layout. -/
structure UpdateMenu where
  type : String
  direction : String
  showactive : Bool
  active : ℕ
  buttons : List Button
deriving DecidableEq

/-- The figure assembled by the old generator's `build_figure`: its traces,
its layout title and its dropdown menu (geo styling and margins are constant
and not relevant to any claim, so they are omitted from the record). -/
structure Figure where
  data : List Scattergeo
  title : String
  updatemenus : List UpdateMenu
deriving DecidableEq

/-- `thresholds = [0, 1, 5, 10]` from `build_figure`. -/
def thresholds : List ℕ := [0, 1, 5, 10]

/-- `df[df["aurora"] >= thr]`: the rows whose intensity is at least `thr`,
in feed order, duplicates retained. -/
def filterGe (df : List Sample) (thr : ℕ) : List Sample :=
  df.filter (fun s => (thr : ℚ) ≤ s.aurora)

/-- `df["aurora"].max()`: pandas returns the maximum of the column, or `NaN`
(modelled as `none`) when the frame is empty. -/
def dfAuroraMax (df : List Sample) : Option ℚ :=
  match df.map (fun s => s.aurora) with
  | [] => none
  | a :: as => some (as.foldl max a)

/-- The `go.Scattergeo(...)` call for index `i` and threshold `thr` in
`build_figure`'s loop: only the first trace (`i == 0`) carries the colorbar,
only the first trace starts visible. -/
def mkTrace (df : List Sample) (maxA : Option ℚ) (i : ℕ) (thr : ℕ) : Scattergeo :=
  let subset := filterGe df thr
  { lon := subset.map (fun s => s.lon)
    lat := subset.map (fun s => s.lat)
    mode := "markers"
    marker :=
      { size := 2
        color := subset.map (fun s => s.aurora)
        colorscale := "Viridis"
        cmin := 0
        cmax := maxA
        colorbar := if i = 0 then some { title := "Aurora<br>Intensity" } else none }
    showlegend := false
    visible := i = 0
    name := "aurora ≥ " ++ toString thr }

/-- The base title of the old `build_figure` (Python joins the two adjacent
string literals into one f-string at compile time). -/
def mkTitle (obs_time fc_time : String) : String :=
  "Aurora Forecast" ++ "<br><sub>Observation: " ++ obs_time
    ++ " | Forecast: " ++ fc_time ++ "</sub>"

/-- `visible = [False] * n; visible[i] = True`. -/
def oneHot (n i : ℕ) : List Bool :=
  (List.range n).map (fun j => j = i)

/-- The dropdown button for index `i` and threshold `thr` in `build_figure`. -/
def mkButton (title : String) (n i : ℕ) (thr : ℕ) : Button :=
  { label := "Aurora ≥ " ++ toString thr
    method := "update"
    argVisible := oneHot n i
    argTitle := title ++ "<br><sup>Threshold: aurora ≥ " ++ toString thr ++ "</sup>" }

/-- The old generator's `build_figure(df, obs_time, fc_time)`. -/
def build_figure (df : List Sample) (obs_time fc_time : String) : Figure :=
  let maxA := dfAuroraMax df
  let traces := thresholds.enum.map (fun p => mkTrace df maxA p.1 p.2)
  let title := mkTitle obs_time fc_time
  let buttons := thresholds.enum.map (fun p => mkButton title thresholds.length p.1 p.2)
  { data := traces
    title := title
    updatemenus :=
      [{ type := "dropdown"
         direction := "down"
         showactive := true
         active := 0
         buttons := buttons }] }

/-- All dropdown buttons of a figure, in menu order. -/
def figButtons (fig : Figure) : List Button :=
  (fig.updatemenus.map (fun m => m.buttons)).flatten

/-- Plotly's `"update"` method applied to a button's `args`: set each trace's
visibility from the button's `visible` list and replace the layout title. -/
def applyButton (fig : Figure) (b : Button) : Figure :=
  { fig with
    data := (fig.data.zip b.argVisible).map (fun p => { p.1 with visible := p.2 })
    title := b.argTitle }

/-- Selecting dropdown option `i`: apply button `i`'s update (out-of-range
indices leave the figure unchanged). -/
def selectOption (fig : Figure) (i : ℕ) : Figure :=
  match (figButtons fig).get? i with
  | some b => applyButton fig b
  | none => fig

/-- The title string built inside the new generator's `build_figure`
(`generate_aurora_map.py`, line 25), given the fetched timestamp strings. -/
def newGenTitle (obs_time fc_time : String) : String :=
  "Aurora Forecast<br><sub>Observation: " ++ obs_time
    ++ " | Forecast: " ++ fc_time ++ "</sub>"

/-- Decimal value of a digit character. -/
def digitVal (c : Char) : ℕ := c.toNat - 48

/-- Read exactly `n` decimal digits from the front of `cs`, accumulating into
`acc`; fails when a non-digit appears or the input runs out. -/
def parseDigitsAux : ℕ → ℕ → List Char → Option (ℕ × List Char)
  | 0, acc, cs => some (acc, cs)
  | _ + 1, _, [] => none
  | n + 1, acc, c :: cs =>
    if c.isDigit then parseDigitsAux n (acc * 10 + digitVal c) cs else none

/-- Consume the expected character from the front of the input. -/
def expectChar (c : Char) : List Char → Option (List Char)
  | [] => none
  | d :: cs => if d = c then some cs else none

/-- Gregorian leap-year test, as `datetime` validates dates. -/
def isLeap (y : ℕ) : Bool := (y % 4 = 0 && y % 100 ≠ 0) || y % 400 = 0

/-- Number of days in a month, as `datetime` validates dates. -/
def daysInMonth (y m : ℕ) : ℕ :=
  if m = 2 then (if isLeap y then 29 else 28)
  else if m = 4 ∨ m = 6 ∨ m = 9 ∨ m = 11 then 30
  else 31

/-- The fields of a Python `datetime` that `strftime("%Y%m%d_%H%M%S")`
reads (the parsed UTC offset does not shift them, so it is validated during
parsing and then dropped). -/
structure PyDateTime where
  year : ℕ
  month : ℕ
  day : ℕ
  hour : ℕ
  minute : ℕ
  second : ℕ
deriving DecidableEq

/-- A trailing `±HH:MM` UTC offset, or no offset at all; anything else is a
parse failure. -/
def parseTzOffset : List Char → Option Unit
  | [] => some ()
  | sign :: cs =>
    if sign = '+' ∨ sign = '-' then
      match parseDigitsAux 2 0 cs with
      | none => none
      | some (oh, cs) =>
        match expectChar ':' cs with
        | none => none
        | some cs =>
          match parseDigitsAux 2 0 cs with
          | none => none
          | some (om, cs) =>
            if cs = [] ∧ oh ≤ 23 ∧ om ≤ 59 then some () else none
    else none

/-- `datetime.fromisoformat`, restricted to the grammar this program feeds it:
a dashed date `YYYY-MM-DD`, optionally followed by a separator (`T` or space),
a full `HH:MM:SS` time and an optional `±HH:MM` UTC offset; all fields are
range-validated as `datetime` does.  Other ISO-8601 spellings the feed never
produces are rejected. -/
def fromisoformatChars (cs : List Char) : Option PyDateTime :=
  match parseDigitsAux 4 0 cs with
  | none => none
  | some (y, cs) =>
    match expectChar '-' cs with
    | none => none
    | some cs =>
      match parseDigitsAux 2 0 cs with
      | none => none
      | some (mo, cs) =>
        match expectChar '-' cs with
        | none => none
        | some cs =>
          match parseDigitsAux 2 0 cs with
          | none => none
          | some (d, cs) =>
            if ¬(1 ≤ y ∧ y ≤ 9999 ∧ 1 ≤ mo ∧ mo ≤ 12 ∧ 1 ≤ d ∧ d ≤ daysInMonth y mo)
            then none
            else
              match cs with
              | [] => some ⟨y, mo, d, 0, 0, 0⟩
              | sep :: cs =>
                if ¬(sep = 'T' ∨ sep = ' ') then none
                else
                  match parseDigitsAux 2 0 cs with
                  | none => none
                  | some (hh, cs) =>
                    match expectChar ':' cs with
                    | none => none
                    | some cs =>
                      match parseDigitsAux 2 0 cs with
                      | none => none
                      | some (mi, cs) =>
                        match expectChar ':' cs with
                        | none => none
                        | some cs =>
                          match parseDigitsAux 2 0 cs with
                          | none => none
                          | some (ss, cs) =>
                            if ¬(hh ≤ 23 ∧ mi ≤ 59 ∧ ss ≤ 59) then none
                            else
                              match parseTzOffset cs with
                              | none => none
                              | some _ => some ⟨y, mo, d, hh, mi, ss⟩

/-- `ts.replace("Z", "+00:00")`: every occurrence of the one-character
pattern is substituted. -/
def replaceZ : List Char → List Char
  | [] => []
  | c :: cs =>
    if c = 'Z' then '+' :: '0' :: '0' :: ':' :: '0' :: '0' :: replaceZ cs
    else c :: replaceZ cs

/-- Zero-pad to two digits, as `strftime`'s `%m %d %H %M %S` do. -/
def pad2 (n : ℕ) : String := if n < 10 then "0" ++ toString n else toString n

/-- Zero-pad to four digits, as `%Y` renders the (always four-digit here)
year. -/
def pad4 (n : ℕ) : String :=
  if n < 10 then "000" ++ toString n
  else if n < 100 then "00" ++ toString n
  else if n < 1000 then "0" ++ toString n
  else toString n

/-- `dt.strftime("%Y%m%d_%H%M%S")`. -/
def strftimeCompact (dt : PyDateTime) : String :=
  pad4 dt.year ++ pad2 dt.month ++ pad2 dt.day ++ "_"
    ++ pad2 dt.hour ++ pad2 dt.minute ++ pad2 dt.second

/-- `format_iso_timestamp`: `None` for the empty string, otherwise parse
`ts.replace("Z", "+00:00")` and format it; any parse failure (the `except`
branch) yields `None`. -/
def format_iso_timestamp (ts : String) : Option String :=
  if ts.data.isEmpty then none
  else (fromisoformatChars (replaceZ ts.data)).map strftimeCompact

/-- `get_timestamp_from_times`: each part falls back to `"unknown"` via
Python's `or` (`format_iso_timestamp` never returns a falsy non-`None`
value, so `or` is exactly the `None` fallback). -/
def get_timestamp_from_times (obs_time fc_time : String) : String :=
  let obs_part := (format_iso_timestamp obs_time).getD "unknown"
  let fc_part := (format_iso_timestamp fc_time).getD "unknown"
  "obs_" ++ obs_part ++ "__fc_" ++ fc_part

/-- Outcome of one run of `main`: either a normal exit listing the files
written and the confirmation lines printed, or an uncaught exception (a
non-zero process exit) listing the files already written when it was
raised. -/
inductive RunOutcome where
  | ok (written : List String) (printed : List String)
  | error (written : List String)
deriving DecidableEq

/-- `main` after a successful fetch of `(df, obs, fc)`: create the output
directories, build the figure, write the interactive HTML, then write the
JPEG snapshot, then print the two confirmation lines.  `htmlOk` and
`imageOk` say whether `fig.write_html` and `fig.write_image` succeed; the
source wraps neither call in `try/except`, so a failure propagates
immediately, aborting the run with whatever files were already written. -/
def mainRun (df : List Sample) (obs fc : String) (htmlOk imageOk : Bool) :
    RunOutcome :=
  let _fig := build_figure df obs fc
  if htmlOk = false then .error []
  else
    let ts := get_timestamp_from_times obs fc
    let jpgPath := "docs/images/aurora_" ++ ts ++ ".jpg"
    if imageOk = false then .error ["docs/index.html"]
    else
      .ok ["docs/index.html", jpgPath]
        ["Saved interactive map to docs/index.html",
         "Saved JPEG snapshot to " ++ jpgPath]

/-- Concrete three-sample snapshot with intensities `[0, 2, 12]`. -/
def df₃ : List Sample :=
  [{ lon := -10, lat := 60, aurora := 0 },
   { lon := 20, lat := 65, aurora := 2 },
   { lon := 30, lat := 70, aurora := 12 }]

lemma length_filter_le_of_imp {α : Type} (l : List α) (p q : α → Bool)
    (h : ∀ a, p a = true → q a = true) :
    (l.filter p).length ≤ (l.filter q).length := by
  induction l with
  | nil => exact Nat.le_refl 0
  | cons x xs ih =>
    rw [List.filter_cons, List.filter_cons]
    cases hp : p x with
    | true =>
      rw [h x hp]
      simpa using Nat.succ_le_succ ih
    | false =>
      cases hq : q x with
      | true => simpa using Nat.le_succ_of_le ih
      | false => simpa using ih

lemma filterGe_length_mono (df : List Sample) (a b : ℕ) (hab : a ≤ b) :
    (filterGe df b).length ≤ (filterGe df a).length := by
  apply length_filter_le_of_imp
  intro s hs
  simp only [decide_eq_true_eq] at hs ⊢
  exact le_trans (by exact_mod_cast hab) hs

lemma build_figure_counts_eq (df : List Sample) (obs fc : String) :
    (build_figure df obs fc).data.map (fun t => t.lon.length)
      = [(filterGe df 0).length, (filterGe df 1).length,
         (filterGe df 5).length, (filterGe df 10).length] := by
  show [((filterGe df 0).map (fun s => s.lon)).length,
        ((filterGe df 1).map (fun s => s.lon)).length,
        ((filterGe df 5).map (fun s => s.lon)).length,
        ((filterGe df 10).map (fun s => s.lon)).length] = _
  simp only [List.length_map]

lemma le_foldl_max (as : List ℚ) : ∀ a : ℚ, a ≤ as.foldl max a := by
  induction as with
  | nil => intro a; exact le_refl a
  | cons x xs ih => intro a; exact le_trans (le_max_left a x) (ih (max a x))

lemma mem_le_foldl_max (as : List ℚ) : ∀ a x : ℚ, x ∈ as → x ≤ as.foldl max a := by
  induction as with
  | nil => intro a x hx; cases hx
  | cons y ys ih =>
    intro a x hx
    cases hx with
    | head => exact le_trans (le_max_right a y) (le_foldl_max ys (max a y))
    | tail _ h => exact ih (max a y) x h

lemma foldl_max_mem (as : List ℚ) : ∀ a : ℚ, as.foldl max a = a ∨ as.foldl max a ∈ as := by
  induction as with
  | nil => intro a; exact Or.inl rfl
  | cons y ys ih =>
    intro a
    rw [List.foldl_cons]
    rcases ih (max a y) with h | h
    · rw [h]
      rcases max_choice a y with h2 | h2
      · exact Or.inl h2
      · exact Or.inr (by rw [h2]; exact List.mem_cons_self y ys)
    · exact Or.inr (List.mem_cons_of_mem y h)

lemma dfAuroraMax_spec (df : List Sample) (h : df ≠ []) :
    ∃ m, dfAuroraMax df = some m ∧ m ∈ df.map (fun s => s.aurora) ∧
      ∀ x ∈ df.map (fun s => s.aurora), x ≤ m := by
  cases df with
  | nil => exact absurd rfl h
  | cons s rest =>
    refine ⟨(rest.map (fun t : Sample => t.aurora)).foldl max s.aurora, rfl, ?_, ?_⟩
    · rcases foldl_max_mem (rest.map (fun t : Sample => t.aurora)) s.aurora with h1 | h1
      · rw [List.map_cons, h1]; exact List.mem_cons_self _ _
      · rw [List.map_cons]; exact List.mem_cons_of_mem _ h1
    · intro x hx
      rw [List.map_cons] at hx
      cases hx with
      | head => exact le_foldl_max _ _
      | tail _ hx => exact mem_le_foldl_max _ _ _ hx

/-- Claim C1 (counterexample): on the snapshot with zero samples,
`build_figure` does not fail — there is no `EmptyDataError` anywhere in the
code — it returns a full four-layer document, with pandas' maximum of the
empty intensity column being `NaN` (modelled as `none`). -/
theorem empty_snapshot_builds_document :
    (build_figure [] "" "").data.length = 4 ∧ dfAuroraMax [] = none :=
  ⟨rfl, rfl⟩

/-- Claim C1 (amended): for every pair of timestamp strings, `build_figure`
on the empty snapshot succeeds and returns a document whose four layers are
all empty and whose shared color-scale maximum is undefined (pandas `NaN`,
modelled as `none`). -/
theorem build_figure_empty_snapshot (obs fc : String) :
    (build_figure [] obs fc).data.map (fun t => (t.lon.length, t.marker.cmax))
      = [(0, none), (0, none), (0, none), (0, none)] := rfl

/-- Claim C2 (counterexample): when `fig.write_image` fails after a
successful `fig.write_html`, the run does not end as a success — `main` has
no `try/except`, so the exception propagates and the run aborts (no
confirmation lines are printed), with only the HTML file on disk. -/
theorem image_failure_aborts_run :
    mainRun df₃ "" "" true false = RunOutcome.error ["docs/index.html"] := rfl

/-- Claim C2 (amended): a raster-snapshot write failure is fatal to the run
(the uncaught exception aborts `main` with a non-zero outcome and nothing
printed), but the interactive HTML document was already written before the
image write was attempted, so that output remains on disk; when both writes
succeed the run ends normally with both files written and both confirmation
lines printed. -/
theorem image_failure_fatal_html_preserved (df : List Sample) (obs fc : String) :
    mainRun df obs fc true false = RunOutcome.error ["docs/index.html"]
    ∧ mainRun df obs fc true true
        = RunOutcome.ok
            ["docs/index.html",
             "docs/images/aurora_" ++ get_timestamp_from_times obs fc ++ ".jpg"]
            ["Saved interactive map to docs/index.html",
             "Saved JPEG snapshot to docs/images/aurora_"
               ++ get_timestamp_from_times obs fc ++ ".jpg"] :=
  ⟨rfl, rfl⟩

/-- Claim C3: for every non-empty snapshot, `build_figure` produces exactly
4 layers whose sample counts are monotonically non-increasing in the
threshold index; in particular the snapshot with intensities 0, 2, 12
yields counts 3, 2, 1, 1. -/
theorem build_figure_layer_counts (df : List Sample) (obs fc : String)
    (h : df ≠ []) :
    (build_figure df obs fc).data.length = 4
    ∧ List.Chain' (fun a b => b ≤ a)
        ((build_figure df obs fc).data.map (fun t => t.lon.length))
    ∧ (build_figure df₃ "" "").data.map (fun t => t.lon.length) = [3, 2, 1, 1] := by
  refine ⟨rfl, ?_, rfl⟩
  rw [build_figure_counts_eq]
  refine List.chain'_cons.mpr ⟨?_, List.chain'_cons.mpr ⟨?_,
    List.chain'_cons.mpr ⟨?_, List.chain'_singleton _⟩⟩⟩
  · exact filterGe_length_mono df 0 1 (by norm_num)
  · exact filterGe_length_mono df 1 5 (by norm_num)
  · exact filterGe_length_mono df 5 10 (by norm_num)

/-- Witness for claim C3 at the concrete three-sample snapshot. -/
theorem build_figure_layer_counts_witness :
    df₃ ≠ []
    ∧ ((build_figure df₃ "" "").data.length = 4
       ∧ List.Chain' (fun a b => b ≤ a)
           ((build_figure df₃ "" "").data.map (fun t => t.lon.length))
       ∧ (build_figure df₃ "" "").data.map (fun t => t.lon.length) = [3, 2, 1, 1]) :=
  ⟨by decide, build_figure_layer_counts df₃ "" "" (by decide)⟩

/-- Claim C4: immediately after `build_figure` returns, exactly one layer has
its visibility flag true, and that layer is layer 0 (threshold 0); all other
layers are hidden. -/
theorem build_figure_initial_visibility (df : List Sample) (obs fc : String) :
    (build_figure df obs fc).data.map (fun t => t.visible)
      = [true, false, false, false] := rfl

/-- Claim C5: selecting control option `i` sets layer `i` visible and all
other layers hidden, and selecting option `i` twice yields the same figure
(hence the same visibility vector) as selecting it once. -/
theorem selectOption_exclusive_and_idempotent (df : List Sample)
    (obs fc : String) (i : ℕ)
    (h : i < (figButtons (build_figure df obs fc)).length) :
    (selectOption (build_figure df obs fc) i).data.map (fun t => t.visible)
        = oneHot 4 i
    ∧ selectOption (selectOption (build_figure df obs fc) i) i
        = selectOption (build_figure df obs fc) i := by
  have h4 : i < 4 := h
  interval_cases i
  · exact ⟨rfl, rfl⟩
  · exact ⟨rfl, rfl⟩
  · exact ⟨rfl, rfl⟩
  · exact ⟨rfl, rfl⟩

/-- Witness for claim C5 at the concrete snapshot and option index 1. -/
theorem selectOption_exclusive_and_idempotent_witness :
    1 < (figButtons (build_figure df₃ "" "")).length
    ∧ ((selectOption (build_figure df₃ "" "") 1).data.map (fun t => t.visible)
          = oneHot 4 1
       ∧ selectOption (selectOption (build_figure df₃ "" "") 1) 1
          = selectOption (build_figure df₃ "" "") 1) :=
  ⟨by decide, selectOption_exclusive_and_idempotent df₃ "" "" 1 (by decide)⟩

/-- Claim C6: the timestamp formatter (with the call sites' `or "unknown"`
fallback) maps `2025-11-12T21:47:00Z` to `20251112_214700`, the empty string
to `unknown`, and `not-a-date` to `unknown`; and it is total — every input
yields either `unknown` or the compact rendering of a successfully parsed
datetime, never an exception. -/
theorem format_timestamp_behavior :
    (format_iso_timestamp "2025-11-12T21:47:00Z").getD "unknown" = "20251112_214700"
    ∧ (format_iso_timestamp "").getD "unknown" = "unknown"
    ∧ (format_iso_timestamp "not-a-date").getD "unknown" = "unknown"
    ∧ ∀ ts : String, (format_iso_timestamp ts).getD "unknown" = "unknown"
        ∨ ∃ dt, fromisoformatChars (replaceZ ts.data) = some dt ∧
            (format_iso_timestamp ts).getD "unknown" = strftimeCompact dt := by
  refine ⟨rfl, rfl, rfl, ?_⟩
  intro ts
  by_cases he : ts.data.isEmpty
  · left; simp [format_iso_timestamp, he]
  · cases hp : fromisoformatChars (replaceZ ts.data) with
    | none => left; simp [format_iso_timestamp, he, hp]
    | some dt => right; exact ⟨dt, rfl, by simp [format_iso_timestamp, he, hp]⟩

/-- Claim C7: for every pair of timestamp strings, the filename stem is
`obs_` plus the formatted observation part plus `__fc_` plus the formatted
forecast part, each part converted independently with the `unknown`
fallback; in particular a valid observation time together with an empty
forecast time yields `obs_20251112_214700__fc_unknown`. -/
theorem filename_stem_derivation :
    (∀ obs fc : String,
        get_timestamp_from_times obs fc
          = "obs_" ++ (format_iso_timestamp obs).getD "unknown"
              ++ "__fc_" ++ (format_iso_timestamp fc).getD "unknown")
    ∧ get_timestamp_from_times "2025-11-12T21:47:00Z" ""
        = "obs_20251112_214700__fc_unknown" :=
  ⟨fun _ _ => rfl, rfl⟩

/-- Claim C8: in the document produced by `build_figure`, the shared
colorbar is attached to exactly the first layer (threshold 0) and to no
other, while every layer uses the same Viridis color mapping with range
from 0 to the snapshot's maximum intensity (for a non-empty snapshot,
`dfAuroraMax` is exactly that maximum: an attained upper bound of the
intensity column). -/
theorem colorbar_first_layer_only (df : List Sample) (obs fc : String)
    (i : ℕ) (h : i < (build_figure df obs fc).data.length) :
    (((build_figure df obs fc).data.get ⟨i, h⟩).marker.colorbar ≠ none ↔ i = 0)
    ∧ ((build_figure df obs fc).data.get ⟨i, h⟩).marker.colorscale = "Viridis"
    ∧ ((build_figure df obs fc).data.get ⟨i, h⟩).marker.cmin = 0
    ∧ ((build_figure df obs fc).data.get ⟨i, h⟩).marker.cmax = dfAuroraMax df
    ∧ (df ≠ [] → ∃ m, dfAuroraMax df = some m
        ∧ m ∈ df.map (fun s => s.aurora)
        ∧ ∀ x ∈ df.map (fun s => s.aurora), x ≤ m) := by
  have h4 : i < 4 := h
  interval_cases i
  · exact ⟨iff_of_true (fun hc => Option.noConfusion hc) rfl, rfl, rfl, rfl,
      fun hne => dfAuroraMax_spec df hne⟩
  · exact ⟨iff_of_false (fun hc => hc rfl) (by omega), rfl, rfl, rfl,
      fun hne => dfAuroraMax_spec df hne⟩
  · exact ⟨iff_of_false (fun hc => hc rfl) (by omega), rfl, rfl, rfl,
      fun hne => dfAuroraMax_spec df hne⟩
  · exact ⟨iff_of_false (fun hc => hc rfl) (by omega), rfl, rfl, rfl,
      fun hne => dfAuroraMax_spec df hne⟩

/-- Witness for claim C8 at the concrete snapshot and layer index 0. -/
theorem colorbar_first_layer_only_witness :
    0 < (build_figure df₃ "" "").data.length
    ∧ ((((build_figure df₃ "" "").data.get
          ⟨0, Nat.succ_pos 3⟩).marker.colorbar ≠ none ↔ 0 = 0)
       ∧ ((build_figure df₃ "" "").data.get
          ⟨0, Nat.succ_pos 3⟩).marker.colorscale = "Viridis"
       ∧ ((build_figure df₃ "" "").data.get
          ⟨0, Nat.succ_pos 3⟩).marker.cmin = 0
       ∧ ((build_figure df₃ "" "").data.get
          ⟨0, Nat.succ_pos 3⟩).marker.cmax = dfAuroraMax df₃
       ∧ (df₃ ≠ [] → ∃ m, dfAuroraMax df₃ = some m
           ∧ m ∈ df₃.map (fun s => s.aurora)
           ∧ ∀ x ∈ df₃.map (fun s => s.aurora), x ≤ m)) :=
  ⟨Nat.succ_pos 3, colorbar_first_layer_only df₃ "" "" 0 (Nat.succ_pos 3)⟩

/-- Claim C9: for every snapshot whose intensities are all non-negative,
layer 0 (threshold 0, no filter) contains exactly the snapshot's samples,
in order and with duplicates retained. -/
theorem layer_zero_contains_all_samples (df : List Sample) (obs fc : String)
    (h : ∀ s ∈ df, 0 ≤ s.aurora) :
    ((build_figure df obs fc).data.get? 0).map
        (fun t => (t.lon, t.lat, t.marker.color))
      = some (df.map (fun s => s.lon), df.map (fun s => s.lat),
              df.map (fun s => s.aurora)) := by
  have hf : filterGe df 0 = df := by
    apply List.filter_eq_self.mpr
    intro s hs
    simp only [decide_eq_true_eq]
    exact_mod_cast h s hs
  show some ((filterGe df 0).map (fun s => s.lon),
             (filterGe df 0).map (fun s => s.lat),
             (filterGe df 0).map (fun s => s.aurora)) = _
  rw [hf]

/-- Witness for claim C9 at the concrete three-sample snapshot. -/
theorem layer_zero_contains_all_samples_witness :
    (∀ s ∈ df₃, 0 ≤ s.aurora)
    ∧ ((build_figure df₃ "" "").data.get? 0).map
          (fun t => (t.lon, t.lat, t.marker.color))
        = some (df₃.map (fun s => s.lon), df₃.map (fun s => s.lat),
                df₃.map (fun s => s.aurora)) :=
  ⟨by decide, layer_zero_contains_all_samples df₃ "" "" (by decide)⟩

/-- Claim C10: for every pair of timestamp strings, the old generator's
`build_figure` and the new generator's `build_figure` construct the
identical base title string. -/
theorem old_new_title_agree (df : List Sample) (obs fc : String) :
    (build_figure df obs fc).title = newGenTitle obs fc := rfl

end AuroraMap
